import Mathlib

/-!
Shallow embedding of the `market` Django app (Vayom/market_place):
models (src/market/models.py), request handlers (src/market/views.py),
permission checks (src/market/permissions.py) and the account-creation
hook (src/market/signals.py).

Conventions of the embedding:
* Database rows are records in lists; primary keys are `Nat`.
* `DecimalField` prices are modelled as `Int` (exact sums; the code only
  adds prices, never divides).
* A Django `ManyToManyField` is a list of ids with set semantics:
  `.add` inserts only if absent (`msetAdd`).
* A handler is a pure function `DB → Request → args → Resp × DB`:
  the response together with the database after the request.
* `rest_framework.response.Response(...)` built with no `status=` argument
  carries HTTP 200, matching the framework default.
-/

namespace Market

/-- A product row (models.py `Product`): id, price and owning user
(name/description/category do not affect the verified handlers). -/
structure Product where
  id : Nat
  price : Int
  user : Nat
deriving Repr, DecidableEq

/-- A cart row (models.py `Cart`): one-to-one user, many-to-many products. -/
structure Cart where
  user : Nat
  products : List Nat
deriving Repr, DecidableEq

/-- An order row (models.py `Order`): `status` defaults to "Pending". -/
structure Order where
  id : Nat
  user : Nat
  products : List Nat
  status : String
  total_amount : Int
deriving Repr, DecidableEq

/-- A review row (models.py `Review`): `text` is a non-null TextField and
`rating` a non-null PositiveIntegerField, so stored rows always carry
values. -/
structure Review where
  id : Nat
  product : Nat
  user : Nat
  text : String
  rating : Int
deriving Repr, DecidableEq

/-- The relational store: the tables the verified handlers touch.
`profiles` keeps the user id of each `UserProfile` row. -/
structure DB where
  products : List Product
  carts : List Cart
  orders : List Order
  reviews : List Review
  profiles : List Nat
  nextOrderId : Nat
  nextReviewId : Nat
deriving Repr, DecidableEq

/-- An incoming HTTP request: `request.user`, `user.is_authenticated`
and `request.method`. -/
structure Request where
  user : Nat
  isAuthenticated : Bool
  method : String
deriving Repr, DecidableEq

/-- Response bodies the handlers produce: a JSON `{'message': ...}`,
serialized cart data (`CartSerializer(cart).data`, identified by its
product id list), or an empty body (framework error pages, 204). -/
inductive RespBody where
  | message (s : String)
  | cartData (products : List Nat)
  | empty
deriving Repr, DecidableEq

/-- An HTTP response: status code and body. -/
structure Resp where
  status : Nat
  body : RespBody
deriving Repr, DecidableEq

/-- `ManyToManyField.add`: relational set semantics, a duplicate add is a
no-op. -/
def msetAdd (l : List Nat) (x : Nat) : List Nat :=
  if x ∈ l then l else l ++ [x]

/-- Price of the product with the given id (0 when absent; cart and order
entries reference existing products by foreign-key integrity). -/
def priceOf (db : DB) (pid : Nat) : Int :=
  match db.products.find? (fun p => p.id == pid) with
  | some p => p.price
  | none => 0

/-- Sum of the prices of a list of product ids. -/
def sumPrices (db : DB) (l : List Nat) : Int :=
  (l.map (priceOf db)).sum

/-- `Cart.objects.get(user=user)` (one-to-one, so `find?`). -/
def findCart (db : DB) (u : Nat) : Option Cart :=
  db.carts.find? (fun c => c.user == u)

/-- Persist a new product set on the cart owned by `u`. -/
def setCartProducts (carts : List Cart) (u : Nat) (ps : List Nat) : List Cart :=
  carts.map (fun c => if c.user == u then { c with products := ps } else c)

/-- views.py `AddProductToCart.post`: authentication check, product
lookup (404 when missing), `cart.products.add(product)`, save, return the
serialized cart with 200.  `Cart.objects.get` on a user with no cart row
raises an uncaught `DoesNotExist`, i.e. a 500 server error. -/
def addProductToCart (db : DB) (req : Request) (product_id : Nat) : Resp × DB :=
  if req.isAuthenticated then
    match db.products.find? (fun p => p.id == product_id) with
    | none => ({ status := 404, body := .message "Product does not exist" }, db)
    | some product =>
      match findCart db req.user with
      | none => ({ status := 500, body := .empty }, db)
      | some cart =>
        let newProds := msetAdd cart.products product.id
        ({ status := 200, body := .cartData newProds },
         { db with carts := setCartProducts db.carts req.user newProds })
  else
    ({ status := 401, body := .message "User is not authenticated" }, db)

/-- The for-loop of views.py `CreateOrderFromCart.post`: iterate the cart
products accumulating `total_amount` and attaching each product to the
order's many-to-many set. -/
def orderLoop (db : DB) (ps : List Nat) (total : Int) (acc : List Nat) : Int × List Nat :=
  match ps with
  | [] => (total, acc)
  | p :: rest => orderLoop db rest (total + priceOf db p) (msetAdd acc p)

/-- views.py `CreateOrderFromCart.post`: NO authentication check.  For
an authenticated request, `request.user` is a real user row: cart lookup
by its id (404 when missing), create an Order (status defaults to
"Pending"), run the accumulation loop, save the total, clear the cart,
return 201.  For an UNAUTHENTICATED request, `request.user` is the
`AnonymousUser` object, not a user id: `Cart.objects.get(user=user)`
raises a TypeError while building the query (the object cannot be
coerced to the foreign-key id column), the handler's
`except Cart.DoesNotExist` does not catch it, and the request ends in a
500 server error with no state change. -/
def createOrderFromCart (db : DB) (req : Request) : Resp × DB :=
  if req.isAuthenticated then
    match findCart db req.user with
    | none => ({ status := 404, body := .message "Cart does not exist" }, db)
    | some cart =>
      let res := orderLoop db cart.products 0 []
      let order : Order :=
        { id := db.nextOrderId, user := req.user, products := res.2,
          status := "Pending", total_amount := res.1 }
      ({ status := 201, body := .message "Order created successfully" },
       { db with orders := db.orders ++ [order],
                 nextOrderId := db.nextOrderId + 1,
                 carts := setCartProducts db.carts req.user [] })
  else
    ({ status := 500, body := .empty }, db)

/-- views.py `CancelOrder.post`: authentication check (401), order lookup
(404), then the STATUS check — `Response({'message': ...})` with no
status argument, hence HTTP 200 — then the ownership check (404 "Bad
User"), then move every order product into the cart, delete the order
row, and return the serialized cart with 200.  `Cart.objects.get` is not
wrapped in try/except: a missing cart is an uncaught exception (500). -/
def cancelOrder (db : DB) (req : Request) (order_id : Nat) : Resp × DB :=
  if req.isAuthenticated then
    match db.orders.find? (fun o => o.id == order_id) with
    | none => ({ status := 404, body := .message "Order does not exist" }, db)
    | some order =>
      if order.status ≠ "Pending" then
        ({ status := 200, body := .message "The order cannot be cancelled" }, db)
      else if order.user ≠ req.user then
        ({ status := 404, body := .message "Bad User" }, db)
      else
        match findCart db req.user with
        | none => ({ status := 500, body := .empty }, db)
        | some cart =>
          let newProds := order.products.foldl msetAdd cart.products
          ({ status := 200, body := .cartData newProds },
           { db with carts := setCartProducts db.carts req.user newProds,
                     orders := db.orders.filter (fun o => o.id ≠ order_id) })
  else
    ({ status := 401, body := .message "User is not authenticated" }, db)

/-- The review request body: `request.data.get('text')` and
`request.data.get('rating')`; `none` models a missing key (or a value the
integer column cannot take). -/
structure ReqData where
  text : Option String
  rating : Option Int
deriving Repr, DecidableEq

/-- views.py `CreateReviewView.post`: authentication check (401), product
lookup (404), read `text`/`rating` from the body.  `dict.get` returns
`None` for a missing key and never raises `AttributeError`, so the
`except AttributeError` branch returning 400 "Invalid data" is
unreachable.  `Review.objects.create` with a null `text`, or a null or
negative `rating`, violates the non-null/positive columns of
models.py `Review`; that database error is not caught by the handler, so
the request ends in a 500 server error and no row is stored. -/
def createReview (db : DB) (req : Request) (product_id : Nat) (data : ReqData) : Resp × DB :=
  if req.isAuthenticated then
    match db.products.find? (fun p => p.id == product_id) with
    | none => ({ status := 404, body := .message "Product does not exist" }, db)
    | some product =>
      match data.text, data.rating with
      | some t, some r =>
        if 0 ≤ r then
          let review : Review :=
            { id := db.nextReviewId, product := product.id,
              user := req.user, text := t, rating := r }
          ({ status := 201, body := .message "Review successfully" },
           { db with reviews := db.reviews ++ [review],
                     nextReviewId := db.nextReviewId + 1 })
        else ({ status := 500, body := .empty }, db)
      | _, _ => ({ status := 500, body := .empty }, db)
  else
    ({ status := 401, body := .message "User is not authenticated" }, db)

/-- views.py `DeleteReviewView` (a `DestroyAPIView` with
`permission_classes = [IsAuthenticated, IsOwner]`): the framework rejects
unauthenticated requests (401); `get_object` looks the review up and runs
the ownership object permission (403 on failure).  When the review does
not exist, `get_object` RETURNS a `Response` object instead of raising
`NotFound`; the framework's `perform_destroy` then calls `.delete()` on
that `Response`, an `AttributeError`, so the request ends in a 500 server
error and nothing is deleted. -/
def deleteReview (db : DB) (req : Request) (review_id : Nat) : Resp × DB :=
  if req.isAuthenticated then
    match db.reviews.find? (fun r => r.id == review_id) with
    | some review =>
      if review.user ≠ req.user then ({ status := 403, body := .empty }, db)
      else ({ status := 204, body := .empty },
            { db with reviews := db.reviews.filter (fun r => r.id ≠ review_id) })
    | none => ({ status := 500, body := .empty }, db)
  else
    ({ status := 401, body := .message "User is not authenticated" }, db)

/-- views.py `CartDetail` update path (a `RetrieveUpdateAPIView` with
`permission_classes = [IsAuthenticated, IsOwner]`): the framework rejects
unauthenticated requests (401); otherwise `get_object` resolves the
caller's cart and the serializer writes the submitted product set.  As in
`DeleteReviewView`, a missing cart makes `get_object` return a `Response`
object, which crashes the framework's update (500). -/
def cartDetailUpdate (db : DB) (req : Request) (newProducts : List Nat) : Resp × DB :=
  if req.isAuthenticated then
    match findCart db req.user with
    | none => ({ status := 500, body := .empty }, db)
    | some _ =>
      ({ status := 200, body := .cartData newProducts },
       { db with carts := setCartProducts db.carts req.user newProducts })
  else
    ({ status := 401, body := .message "User is not authenticated" }, db)

/-- permissions.py `IsOwnerOrReadOnly.has_object_permission`:
`if request.method == 'GET': return True; return obj.user == request.user`. -/
def isOwnerOrReadOnly (method : String) (objUser reqUser : Nat) : Bool :=
  if method == "GET" then true else objUser == reqUser

/-- `rest_framework.permissions.SAFE_METHODS`. -/
def safeMethods : List String := ["GET", "HEAD", "OPTIONS"]

/-- signals.py `create_user_cart_and_profile`: the `post_save` hook on
the user model; when `created` is true it inserts one Cart row and one
UserProfile row for the instance, otherwise it does nothing. -/
def create_user_cart_and_profile (db : DB) (userId : Nat) (created : Bool) : DB :=
  if created then
    { db with carts := db.carts ++ [{ user := userId, products := [] }],
              profiles := db.profiles ++ [userId] }
  else db

/-- Number of Cart rows owned by `u`. -/
def cartCount (db : DB) (u : Nat) : Nat :=
  (db.carts.filter (fun c => c.user == u)).length

/-- Number of UserProfile rows owned by `u`. -/
def profileCount (db : DB) (u : Nat) : Nat :=
  (db.profiles.filter (fun p => p == u)).length

/-! ### Helper lemmas -/

theorem mem_msetAdd (l : List Nat) (x y : Nat) :
    y ∈ msetAdd l x ↔ y ∈ l ∨ y = x := by
  unfold msetAdd
  by_cases h : x ∈ l
  · simp only [h, if_true]
    constructor
    · exact fun hy => Or.inl hy
    · rintro (hy | rfl)
      · exact hy
      · exact h
  · simp [h]

theorem msetAdd_idem (l : List Nat) (x : Nat) :
    msetAdd (msetAdd l x) x = msetAdd l x := by
  unfold msetAdd
  by_cases h : x ∈ l
  · simp [h]
  · simp [h]

theorem mem_foldl_msetAdd (ps : List Nat) (l : List Nat) (y : Nat) :
    y ∈ ps.foldl msetAdd l ↔ y ∈ l ∨ y ∈ ps := by
  induction ps generalizing l with
  | nil => simp
  | cons p rest ih =>
    simp only [List.foldl_cons, ih, mem_msetAdd, List.mem_cons]
    tauto

theorem orderLoop_fst (db : DB) (ps : List Nat) (t : Int) (acc : List Nat) :
    (orderLoop db ps t acc).1 = t + sumPrices db ps := by
  induction ps generalizing t acc with
  | nil => simp [orderLoop, sumPrices]
  | cons p rest ih =>
    simp only [orderLoop, ih, sumPrices, List.map_cons, List.sum_cons]
    ring

theorem orderLoop_snd_mem (db : DB) (ps : List Nat) (t : Int) (acc : List Nat) (y : Nat) :
    y ∈ (orderLoop db ps t acc).2 ↔ y ∈ acc ∨ y ∈ ps := by
  induction ps generalizing t acc with
  | nil => simp [orderLoop]
  | cons p rest ih =>
    simp only [orderLoop, ih, mem_msetAdd, List.mem_cons]
    tauto

theorem find_setCartProducts (carts : List Cart) (u : Nat) (ps : List Nat) :
    (setCartProducts carts u ps).find? (fun c => c.user == u)
      = (carts.find? (fun c => c.user == u)).map (fun c => { c with products := ps }) := by
  induction carts with
  | nil => rfl
  | cons c rest ih =>
    simp only [setCartProducts, List.map_cons]
    by_cases h : c.user = u
    · simp [List.find?_cons, h]
    · have hb : (c.user == u) = false := beq_eq_false_iff_ne.mpr h
      simp only [List.find?_cons, hb, if_neg h, Bool.false_eq_true, ite_false]
      exact ih

theorem setCartProducts_twice (carts : List Cart) (u : Nat) (ps qs : List Nat) :
    setCartProducts (setCartProducts carts u ps) u qs = setCartProducts carts u qs := by
  unfold setCartProducts
  rw [List.map_map]
  apply List.map_congr_left
  intro c _
  by_cases h : c.user = u
  · simp [Function.comp, h]
  · simp [Function.comp, h]

/-! ### Concrete fixtures -/

/-- Fixture: a catalog product, id 1, price 10. -/
def p1 : Product := { id := 1, price := 10, user := 2 }

/-- Fixture: a catalog product, id 2, price 5. -/
def p2 : Product := { id := 2, price := 5, user := 2 }

/-- Fixture: empty store. -/
def db0 : DB :=
  { products := [], carts := [], orders := [], reviews := [], profiles := [],
    nextOrderId := 1, nextReviewId := 1 }

/-- Fixture: user 1 owns a cart holding products 1 and 2. -/
def db1 : DB :=
  { products := [p1, p2],
    carts := [{ user := 1, products := [1, 2] }],
    orders := [], reviews := [], profiles := [1],
    nextOrderId := 1, nextReviewId := 1 }

/-- Fixture: an order of user 1 that is already completed. -/
def orderC : Order :=
  { id := 1, user := 1, products := [1], status := "Completed", total_amount := 10 }

/-- Fixture: a pending order of user 1 holding products 1 and 2. -/
def orderP : Order :=
  { id := 1, user := 1, products := [1, 2], status := "Pending", total_amount := 15 }

/-- Fixture: store with the completed order and an empty cart for user 1. -/
def dbC : DB :=
  { products := [p1], carts := [{ user := 1, products := [] }], orders := [orderC],
    reviews := [], profiles := [1], nextOrderId := 2, nextReviewId := 1 }

/-- Fixture: store with the pending order and an empty cart for user 1. -/
def dbP : DB :=
  { products := [p1, p2], carts := [{ user := 1, products := [] }], orders := [orderP],
    reviews := [], profiles := [1], nextOrderId := 2, nextReviewId := 1 }

/-- Fixture: an authenticated request by user 1. -/
def req1 : Request := { user := 1, isAuthenticated := true, method := "POST" }

/-- Fixture: an authenticated request by user 2. -/
def req2 : Request := { user := 2, isAuthenticated := true, method := "POST" }

/-- Fixture: an unauthenticated request. -/
def reqAnon : Request := { user := 5, isAuthenticated := false, method := "POST" }

/-! ### Claims -/

/-- C1: for every user with an existing cart, a successful `order_create`
request creates an Order whose `total_amount` equals the sum of the
prices of the products that were in the user's cart, whose product set
equals the cart's product set at the time of the request, and afterwards
the cart's product set is empty. -/
theorem C1_order_create_correct (db : DB) (req : Request) (cart : Cart)
    (hauth : req.isAuthenticated = true)
    (hcart : findCart db req.user = some cart) :
    (createOrderFromCart db req).1.status = 201 ∧
    (∃ o : Order,
       o ∈ (createOrderFromCart db req).2.orders ∧
       o.user = req.user ∧
       o.total_amount = sumPrices db cart.products ∧
       (∀ p, p ∈ o.products ↔ p ∈ cart.products)) ∧
    findCart (createOrderFromCart db req).2 req.user = some { cart with products := [] } := by
  have hfind := hcart
  unfold findCart at hfind
  unfold createOrderFromCart
  rw [hauth, if_pos rfl, hcart]
  dsimp only
  refine ⟨rfl, ⟨_, List.mem_append_right _ (List.mem_singleton.mpr rfl), rfl, ?_, ?_⟩, ?_⟩
  · rw [orderLoop_fst]; ring
  · intro p
    rw [orderLoop_snd_mem]
    simp
  · unfold findCart
    dsimp only
    rw [find_setCartProducts, hfind]
    rfl

/-- C1 witness: the theorem applied to the concrete store `db1`. -/
theorem C1_witness :
    (createOrderFromCart db1 req1).1.status = 201 ∧
    (∃ o : Order,
       o ∈ (createOrderFromCart db1 req1).2.orders ∧
       o.user = req1.user ∧
       o.total_amount = sumPrices db1 ([1, 2] : List Nat) ∧
       (∀ p, p ∈ o.products ↔ p ∈ ([1, 2] : List Nat))) ∧
    findCart (createOrderFromCart db1 req1).2 req1.user
      = some { user := 1, products := [] } :=
  C1_order_create_correct db1 req1 { user := 1, products := [1, 2] } rfl rfl

/-- C9: for every authenticated cancel-order request on an existing order
whose status is not "Pending", the handler answers with the
"The order cannot be cancelled" message and leaves the store untouched,
without consulting ownership — the status check runs before the
ownership check, so a non-owner gets the same response as the owner. -/
theorem C9_cancel_status_before_ownership (db : DB) (req : Request) (order_id : Nat)
    (order : Order)
    (hauth : req.isAuthenticated = true)
    (horder : db.orders.find? (fun o => o.id == order_id) = some order)
    (hstatus : order.status ≠ "Pending") :
    cancelOrder db req order_id
      = ({ status := 200, body := .message "The order cannot be cancelled" }, db) := by
  unfold cancelOrder
  rw [hauth, if_pos rfl, horder]
  dsimp only
  rw [if_pos hstatus]

/-- C9 witness: a non-owner (user 2) cancelling user 1's completed order
gets the status-check response, and the store is unchanged. -/
theorem C9_witness :
    cancelOrder dbC req2 1
      = ({ status := 200, body := .message "The order cannot be cancelled" }, dbC) :=
  C9_cancel_status_before_ownership dbC req2 1 orderC rfl rfl (by decide)

/-- C3 failing input: the owner (user 1, authenticated) cancels their own
order 1 whose status is "Completed".  The handler answers with HTTP 200
(`Response({'message': ...})` carries no error status), not the 400 the
spec asks for; the order row survives and the cart is unchanged, as the
claim says. -/
theorem C3_cancel_nonpending_returns_200 :
    (cancelOrder dbC req1 1).1
      = { status := 200, body := .message "The order cannot be cancelled" } ∧
    (cancelOrder dbC req1 1).2 = dbC ∧
    (cancelOrder dbC req1 1).1.status ≠ 400 := by
  refine ⟨rfl, rfl, by decide⟩

/-- C4: for every authenticated user cancelling an order they own whose
status is "Pending", every product of that order is added to the user's
cart, the order row is deleted from the store, and the response returns
the updated cart with status 200. -/
theorem C4_cancel_pending (db : DB) (req : Request) (order_id : Nat)
    (order : Order) (cart : Cart)
    (hauth : req.isAuthenticated = true)
    (horder : db.orders.find? (fun o => o.id == order_id) = some order)
    (hpending : order.status = "Pending")
    (howner : order.user = req.user)
    (hcart : findCart db req.user = some cart) :
    (cancelOrder db req order_id).1
      = { status := 200, body := .cartData (order.products.foldl msetAdd cart.products) } ∧
    (∀ o ∈ (cancelOrder db req order_id).2.orders, o.id ≠ order_id) ∧
    findCart (cancelOrder db req order_id).2 req.user
      = some { cart with products := order.products.foldl msetAdd cart.products } ∧
    (∀ p, p ∈ order.products.foldl msetAdd cart.products
            ↔ p ∈ cart.products ∨ p ∈ order.products) := by
  have hfind := hcart
  unfold findCart at hfind
  unfold cancelOrder
  rw [hauth, if_pos rfl, horder]
  dsimp only
  rw [if_neg (by simp [hpending]), if_neg (by simp [howner])]
  unfold findCart
  rw [hfind]
  dsimp only
  refine ⟨rfl, ?_, ?_, ?_⟩
  · intro o ho
    simp only [List.mem_filter, decide_eq_true_eq] at ho
    exact ho.2
  · rw [find_setCartProducts, hfind]
    rfl
  · intro p
    exact mem_foldl_msetAdd _ _ _

/-- C4 witness: the theorem applied to the concrete store `dbP`. -/
theorem C4_witness :
    (cancelOrder dbP req1 1).1
      = { status := 200, body := .cartData (orderP.products.foldl msetAdd []) } ∧
    (∀ o ∈ (cancelOrder dbP req1 1).2.orders, o.id ≠ 1) ∧
    findCart (cancelOrder dbP req1 1).2 req1.user
      = some { user := 1, products := orderP.products.foldl msetAdd [] } ∧
    (∀ p, p ∈ orderP.products.foldl msetAdd ([] : List Nat)
            ↔ p ∈ ([] : List Nat) ∨ p ∈ orderP.products) :=
  C4_cancel_pending dbP req1 1 orderP { user := 1, products := [] } rfl rfl rfl rfl rfl

/-- C5: for every newly created user account, exactly one Cart row and
exactly one UserProfile row owned by that user exist immediately after
creation, and a later save of the same account (the hook firing with
`created = False`) creates no additional rows. -/
theorem C5_user_creation_hook (db : DB) (u : Nat)
    (hc : cartCount db u = 0) (hp : profileCount db u = 0) :
    cartCount (create_user_cart_and_profile db u true) u = 1 ∧
    profileCount (create_user_cart_and_profile db u true) u = 1 ∧
    create_user_cart_and_profile (create_user_cart_and_profile db u true) u false
      = create_user_cart_and_profile db u true := by
  unfold cartCount at hc
  unfold profileCount at hp
  unfold create_user_cart_and_profile cartCount profileCount
  refine ⟨?_, ?_, rfl⟩
  · simp [List.filter_append, hc]
  · simp [List.filter_append, hp]

/-- C5 witness: the theorem applied to the empty store and user 7. -/
theorem C5_witness :
    cartCount (create_user_cart_and_profile db0 7 true) 7 = 1 ∧
    profileCount (create_user_cart_and_profile db0 7 true) 7 = 1 ∧
    create_user_cart_and_profile (create_user_cart_and_profile db0 7 true) 7 false
      = create_user_cart_and_profile db0 7 true :=
  C5_user_creation_hook db0 7 rfl rfl

/-- C8 counterexample: HEAD is one of the read-only safe methods, yet
`IsOwnerOrReadOnly` denies a HEAD request by a non-owner (object owned by
user 1, requested by user 2) — the code special-cases only GET. -/
theorem C8_head_denied_counterexample :
    "HEAD" ∈ safeMethods ∧ isOwnerOrReadOnly "HEAD" 1 2 = false := by
  refine ⟨?_, rfl⟩
  unfold safeMethods
  simp

/-- C8 amended: `IsOwnerOrReadOnly` grants object access for every GET
request regardless of requester; for every other method — including the
safe methods HEAD and OPTIONS — it grants access if and only if the
object's owning user equals the requesting user. -/
theorem C8_isOwnerOrReadOnly_amended (method : String) (objUser reqUser : Nat)
    (h : method ≠ "GET") :
    isOwnerOrReadOnly "GET" objUser reqUser = true ∧
    (isOwnerOrReadOnly method objUser reqUser = true ↔ objUser = reqUser) := by
  refine ⟨rfl, ?_⟩
  unfold isOwnerOrReadOnly
  simp [h]

/-- C8 witness: the amended theorem applied to a POST request. -/
theorem C8_witness :
    isOwnerOrReadOnly "GET" 3 4 = true ∧
    (isOwnerOrReadOnly "POST" 3 4 = true ↔ 3 = 4) :=
  C8_isOwnerOrReadOnly_amended "POST" 3 4 (by decide)

/-- C10: adding a product to a cart is idempotent — for every
authenticated user, existing product and existing cart, running
add-product-to-cart a second time with the same product id returns the
same 200 response with the same serialized cart and leaves the store
exactly as after the first call. -/
theorem C10_add_to_cart_idempotent (db : DB) (req : Request) (pid : Nat)
    (product : Product) (cart : Cart)
    (hauth : req.isAuthenticated = true)
    (hprod : db.products.find? (fun p => p.id == pid) = some product)
    (hcart : findCart db req.user = some cart) :
    (addProductToCart db req pid).1
      = { status := 200, body := .cartData (msetAdd cart.products product.id) } ∧
    addProductToCart (addProductToCart db req pid).2 req pid = addProductToCart db req pid := by
  have hfind := hcart
  unfold findCart at hfind
  unfold addProductToCart
  rw [hauth, if_pos rfl, hprod]
  dsimp only
  unfold findCart
  rw [hfind]
  dsimp only
  refine ⟨rfl, ?_⟩
  rw [find_setCartProducts, hfind]
  rw [if_pos rfl, hprod]
  simp only [Option.map]
  rw [msetAdd_idem, setCartProducts_twice]

/-- C10 witness: the theorem applied to the concrete store `db1` and
product 1 (already in the cart, so the set is unchanged). -/
theorem C10_witness :
    (addProductToCart db1 req1 1).1
      = { status := 200, body := .cartData (msetAdd [1, 2] p1.id) } ∧
    addProductToCart (addProductToCart db1 req1 1).2 req1 1 = addProductToCart db1 req1 1 :=
  C10_add_to_cart_idempotent db1 req1 1 p1 { user := 1, products := [1, 2] } rfl rfl rfl

/-- C2 counterexample: an unauthenticated order_create request is not
answered with 401 — `CreateOrderFromCart.post` never checks
authentication; the cart lookup with the anonymous user raises an
uncaught TypeError and the request ends in a 500 server error. -/
theorem C2_order_create_no_auth_check :
    (createOrderFromCart db0 reqAnon).1.status = 500 ∧
    (createOrderFromCart db0 reqAnon).1.status ≠ 401 := by
  refine ⟨rfl, by decide⟩

/-- C2 amended: every unauthenticated request to add-product-to-cart,
order_cancel, create_review, delete_review or cart update returns 401
and leaves the store unchanged; order_create performs no authentication
check at all — an unauthenticated request is never answered with 401:
`Cart.objects.get(user=AnonymousUser)` raises an uncaught TypeError, so
the request ends in a 500 server error, also with no state change. -/
theorem C2_unauthenticated_requests (db : DB) (req : Request)
    (pid oid rid : Nat) (data : ReqData) (newProducts : List Nat)
    (hanon : req.isAuthenticated = false) :
    addProductToCart db req pid
      = ({ status := 401, body := .message "User is not authenticated" }, db) ∧
    cancelOrder db req oid
      = ({ status := 401, body := .message "User is not authenticated" }, db) ∧
    createReview db req pid data
      = ({ status := 401, body := .message "User is not authenticated" }, db) ∧
    deleteReview db req rid
      = ({ status := 401, body := .message "User is not authenticated" }, db) ∧
    cartDetailUpdate db req newProducts
      = ({ status := 401, body := .message "User is not authenticated" }, db) ∧
    createOrderFromCart db req = ({ status := 500, body := .empty }, db) := by
  refine ⟨?_, ?_, ?_, ?_, ?_, ?_⟩
  · unfold addProductToCart; rw [hanon]; rfl
  · unfold cancelOrder; rw [hanon]; rfl
  · unfold createReview; rw [hanon]; rfl
  · unfold deleteReview; rw [hanon]; rfl
  · unfold cartDetailUpdate; rw [hanon]; rfl
  · unfold createOrderFromCart; rw [hanon]; rfl

/-- C2 witness: the amended theorem applied to the empty store and the
unauthenticated request. -/
theorem C2_witness :
    addProductToCart db0 reqAnon 1
      = ({ status := 401, body := .message "User is not authenticated" }, db0) ∧
    cancelOrder db0 reqAnon 1
      = ({ status := 401, body := .message "User is not authenticated" }, db0) ∧
    createReview db0 reqAnon 1 { text := none, rating := none }
      = ({ status := 401, body := .message "User is not authenticated" }, db0) ∧
    deleteReview db0 reqAnon 1
      = ({ status := 401, body := .message "User is not authenticated" }, db0) ∧
    cartDetailUpdate db0 reqAnon []
      = ({ status := 401, body := .message "User is not authenticated" }, db0) ∧
    createOrderFromCart db0 reqAnon = ({ status := 500, body := .empty }, db0) :=
  C2_unauthenticated_requests db0 reqAnon 1 1 1 { text := none, rating := none } [] rfl

/-- C6 failing input: an authenticated create-review request on existing
product 1 with an empty body.  `request.data.get` returns None for the
missing `text` and `rating` keys without raising, so the handler's 400
"Invalid data" branch is never taken; `Review.objects.create` then
violates the non-null review columns and the uncaught database error
ends the request in a 500, not the claimed 400 — no review is stored. -/
theorem C6_missing_fields_give_500 :
    (createReview db1 req1 1 { text := none, rating := none }).1.status = 500 ∧
    (createReview db1 req1 1 { text := none, rating := none }).2 = db1 ∧
    (createReview db1 req1 1 { text := none, rating := none }).1.status ≠ 400 := by
  refine ⟨rfl, rfl, by decide⟩

/-- C7 failing input: an authenticated delete-review request with
review_id 99, which matches no review.  `get_object` returns a 404
Response object instead of raising NotFound, so the framework's
`perform_destroy` calls `.delete()` on that Response — an
AttributeError: the request ends in a 500, not the claimed 404; no
review is deleted. -/
theorem C7_missing_review_gives_500 :
    (deleteReview db1 req1 99).1.status = 500 ∧
    (deleteReview db1 req1 99).2 = db1 ∧
    (deleteReview db1 req1 99).1.status ≠ 404 := by
  refine ⟨rfl, rfl, by decide⟩

end Market
